import Mathlib

/-!
Shallow embedding of the client-side connection pipeline and the
graceful-shutdown primitive of the `rama` repository, together with
theorems settling the frozen claims about it.

Parts modelled:
* `src/transport/graceful.rs`: `GracefulService`, `Token`,
  `ShutdownFuture`, `TimeoutError`, modelled as a small-step state
  machine over scheduler traces (the completion channel is modelled by
  its live-sender count: one sender per issued token, plus the retained
  sender which is dropped when `shutdown` observes the cancellation).
* `src/proxy/http/client/layer.rs`: `HttpProxyConnectorService::serve`
  and the two sealed proxy-info providers.
* `rama-tls/src/boring/client/connector.rs`: the three `TlsConnector`
  variants, the shared handshake routine and `AutoTlsStream`.

Collaborator code that is not part of the sources (the raw CONNECT I/O
of `HttpProxyConnector::handshake`, the boring TLS engine, the headers
crate, `RequestContext::new`) is taken as a function parameter or is
modelled from the spec, each such definition marked in its doc comment.
-/

/-- Result of polling a future once, mirroring `std::task::Poll`. -/
inductive Poll (α : Type) where
  | ready (a : α)
  | pending
  deriving DecidableEq, Repr

/-- Host name, as used by `rama_net::address::Host` (modelled as its string form). -/
abbrev Host := String

/-- Socket address (modelled as its string form). -/
abbrev SocketAddr := String

/-- Authority: host plus port, the target of a CONNECT request. -/
structure Authority where
  host : Host
  port : Nat
  deriving DecidableEq, Repr

/-! ### Graceful shutdown state machine (`src/transport/graceful.rs`)

`GracefulService::shutdown` is
`self.shutdown.cancelled().await; drop(self.shutdown_complete_tx); self.shutdown_complete_rx.recv().await`,
and `shutdown_until` wraps the final `recv` in `tokio::time::timeout`.
No token ever sends on the channel, so `recv` resolves exactly when the
channel has zero live senders, i.e. when the retained sender has been
dropped (which `shutdown` does right after observing cancellation) and
every issued `Token` (each holding one sender clone) has been dropped.
The machine below has one boolean per issued token plus the shutdown
call's control point; the environment schedules signal arrival, token
drops, polls of the shutdown future and clock ticks. -/

/-- Control point of a `shutdown` / `shutdown_until` call:
waiting on `cancelled()`, waiting on `recv()` (retained sender already
dropped), resolved, or resolved with the timeout error. -/
inductive Phase where
  | waitCancel
  | waitRecv
  | done
  | timedOut
  deriving DecidableEq, Repr

/-- State of a `GracefulService` with `n` issued tokens together with a
running `shutdown`/`shutdown_until` call. `elapsed` counts ticks since
the timeout was armed (i.e. since `recv` started being awaited). -/
structure GState (n : Nat) where
  cancelled : Bool
  dropped : Fin n → Bool
  phase : Phase
  elapsed : Nat

/-- Scheduler events: the external shutdown signal firing (the spawned
task then cancels the root token), a task dropping its token, the
shutdown future being polled, and a clock tick. -/
inductive GEvent (n : Nat) where
  | signal
  | dropTok (i : Fin n)
  | poll
  | tick
  deriving DecidableEq

/-- All issued tokens have been dropped, i.e. the completion channel has
zero live senders once the retained sender is gone. -/
def allDropped {n : Nat} (s : GState n) : Bool :=
  (List.finRange n).all s.dropped

/-- One scheduler step. `deadline = none` models `shutdown()` (no
timeout), `deadline = some d` models `shutdown_until(d)`. Polling in
`waitRecv` first checks the channel (tokio's `Timeout` polls the inner
future before the clock), then the deadline. The transition out of
`waitCancel` drops the retained sender, hence afterwards only token
senders keep the channel open. -/
def step {n : Nat} (deadline : Option Nat) (s : GState n) : GEvent n → GState n
  | .signal => { s with cancelled := true }
  | .dropTok i => { s with dropped := fun j => if j = i then true else s.dropped j }
  | .tick => if s.phase = .waitRecv then { s with elapsed := s.elapsed + 1 } else s
  | .poll =>
    match s.phase with
    | .waitCancel => if s.cancelled then { s with phase := .waitRecv, elapsed := 0 } else s
    | .waitRecv =>
      if allDropped s then { s with phase := .done }
      else
        match deadline with
        | some d => if d ≤ s.elapsed then { s with phase := .timedOut } else s
        | none => s
    | .done => s
    | .timedOut => s

/-- Run the machine over a scheduler trace. -/
def run {n : Nat} (deadline : Option Nat) (s : GState n) (tr : List (GEvent n)) : GState n :=
  tr.foldl (step deadline) s

/-- Initial state: service freshly created, `n` tokens issued, signal
not yet fired, shutdown call just started. -/
def init (n : Nat) : GState n :=
  { cancelled := false, dropped := fun _ => false, phase := .waitCancel, elapsed := 0 }

/-- The distinguished strongly-typed error returned by
`shutdown_until` when the deadline elapses (`TimeoutError(())` in the
source: a unit struct, not a boxed/opaque error). -/
structure TimeoutError where
  deriving DecidableEq, Repr

/-- Result of a `shutdown_until` call as visible in a machine state:
`none` while still pending, `some (.ok ())` once gracefully drained,
`some (.error ⟨⟩)` once the deadline fired. -/
def shutdownUntilResult {n : Nat} (s : GState n) : Option (Except TimeoutError Unit) :=
  match s.phase with
  | .done => some (.ok ())
  | .timedOut => some (.error ⟨⟩)
  | _ => none

/-! ### Token / ShutdownFuture (`src/transport/graceful.rs`, lines 131-183) -/

/-- World of cancellation nodes: which node ids have been cancelled. -/
def CancelWorld := Nat → Bool

/-- A `tokio_util::sync::CancellationToken` handle: the id of its own
node together with the ids of all its ancestors (a child is cancelled
as soon as any ancestor is). `child_token` allocates a fresh node; the
fresh id is passed explicitly since the embedding is pure. -/
structure CancellationTokenM where
  nodes : List Nat
  deriving DecidableEq, Repr

/-- A token is cancelled iff its own node or any ancestor node is. -/
def CancellationTokenM.isCancelled (t : CancellationTokenM) (w : CancelWorld) : Bool :=
  t.nodes.any w

/-- Derive a child token: fresh node on top of all ancestors. -/
def CancellationTokenM.child_token (t : CancellationTokenM) (fresh : Nat) : CancellationTokenM :=
  ⟨fresh :: t.nodes⟩

/-- `WaitForCancellationFuture`: the future returned by `cancelled()`;
it is resolved exactly when its token is cancelled. -/
abbrev WaitForCancellationFutureM := CancellationTokenM

/-- `CancellationToken::cancelled()`. -/
def CancellationTokenM.cancelled (t : CancellationTokenM) : WaitForCancellationFutureM := t

/-- Polling a `WaitForCancellationFuture` in a given world. -/
def WaitForCancellationFutureM.pollW (f : WaitForCancellationFutureM) (w : CancelWorld) :
    Poll Unit :=
  if f.isCancelled w then .ready () else .pending

/-- The completion-channel sender clone held inside a graceful token
(identified by its channel). -/
structure SenderM where
  ch : Nat
  deriving DecidableEq, Repr

/-- `TokenState`: the wiring of a true graceful token. -/
structure TokenState where
  shutdown : CancellationTokenM
  shutdown_complete : SenderM
  deriving DecidableEq, Repr

/-- `Token`: `state` is `none` for `Token::pending()`. -/
structure Token where
  state : Option TokenState
  deriving DecidableEq, Repr

/-- `Token::new`. -/
def Token.new (shutdown : CancellationTokenM) (shutdown_complete : SenderM) : Token :=
  { state := some { shutdown, shutdown_complete } }

/-- `Token::pending()`: a token with no cancellation/completion wiring. -/
def Token.pendingTok : Token :=
  { state := none }

/-- `ShutdownFuture`: an optional wait-for-cancellation future. -/
structure ShutdownFuture where
  maybe_future : Option WaitForCancellationFutureM
  deriving DecidableEq, Repr

/-- `ShutdownFuture::new`. -/
def ShutdownFuture.new (f : WaitForCancellationFutureM) : ShutdownFuture :=
  { maybe_future := some f }

/-- `ShutdownFuture::pending()`. -/
def ShutdownFuture.pendingFut : ShutdownFuture :=
  { maybe_future := none }

/-- `ShutdownFuture::poll` (lines 38-43): delegate when a future is
present, otherwise stay pending forever. -/
def ShutdownFuture.pollW (f : ShutdownFuture) (w : CancelWorld) : Poll Unit :=
  match f.maybe_future with
  | some fut => fut.pollW w
  | none => .pending

/-- `Token::shutdown` (lines 159-164). -/
def Token.shutdownFut (t : Token) : ShutdownFuture :=
  match t.state with
  | some st => ShutdownFuture.new st.shutdown.cancelled
  | none => ShutdownFuture.pendingFut

/-- `Token::child_token` (lines 166-176): wired tokens derive a child
cancellation token sharing the same completion sender; a pending token
returns a clone of itself. -/
def Token.child_token (t : Token) (fresh : Nat) : Token :=
  match t.state with
  | some st =>
    { state := some { shutdown := st.shutdown.child_token fresh
                      shutdown_complete := st.shutdown_complete } }
  | none => t

/-! ### Proxy / TLS data model -/

/-- `ProxyCredentials` (`src/proxy`): Basic (password optional) or
Bearer, as used by the credentials branch of
`HttpProxyConnectorService::serve`. -/
inductive ProxyCredentials where
  | basic (username : String) (password : Option String)
  | bearer (token : String)
  deriving DecidableEq, Repr

/-- `HttpProxyInfo` (`layer.rs`, lines 37-44). -/
structure HttpProxyInfo where
  proxy : SocketAddr
  credentials : Option ProxyCredentials
  deriving DecidableEq, Repr

/-- The CONNECT connector built by `serve`: the target authority plus
the typed headers attached to the CONNECT request
(`HttpProxyConnector::new` / `with_typed_header`; the connector type
itself lives outside the given sources, its observable construction
state is the authority and header list used by `serve`). -/
structure HttpProxyConnector where
  authority : Authority
  headers : List (String × String)
  deriving DecidableEq, Repr

/-- `HttpProxyConnector::new(authority)`. -/
def HttpProxyConnector.new (a : Authority) : HttpProxyConnector :=
  { authority := a, headers := [] }

/-- `HttpProxyConnector::with_typed_header`. -/
def HttpProxyConnector.with_typed_header (c : HttpProxyConnector) (h : String × String) :
    HttpProxyConnector :=
  { c with headers := c.headers ++ [h] }

/-- Raw byte streams flowing through the pipeline. `tunneled c s` is
the tunnel-ready stream a successful CONNECT handshake with connector
`c` turns `s` into. -/
inductive StreamM where
  | raw (id : Nat)
  | tunneled (c : HttpProxyConnector) (inner : StreamM)
  deriving DecidableEq, Repr

/-- `TlsTunnel` marker (`rama-tls`): requested tunnel server host. -/
structure TlsTunnel where
  server_host : Host
  deriving DecidableEq, Repr

/-- Opaque TLS engine configuration handed to the handshake primitive. -/
structure TlsConfig where
  id : Nat
  deriving DecidableEq, Repr

/-- The data `TlsConnectorData::try_to_build_config` produces: the
engine config plus an optional config-specified server name which
overrides the resolved host. -/
structure ClientConfigData where
  config : TlsConfig
  server_name : Option Host
  deriving DecidableEq, Repr

/-- Decidable equality for `Except`, needed to evaluate the embedded
fallible operations on concrete inputs. -/
instance {ε α : Type} [DecidableEq ε] [DecidableEq α] : DecidableEq (Except ε α) := fun
  | .ok a, .ok b =>
    if h : a = b then .isTrue (by rw [h])
    else .isFalse (by intro he; cases he; exact h rfl)
  | .ok _, .error _ => .isFalse (by intro h; cases h)
  | .error _, .ok _ => .isFalse (by intro h; cases h)
  | .error e, .error f =>
    if h : e = f then .isTrue (by rw [h])
    else .isFalse (by intro he; cases he; exact h rfl)

/-- `TlsConnectorData`. Modelled from the spec: its definition lives
outside the given sources; the handshake routine only uses its fallible
`try_to_build_config`, so it is modelled by that call's result. -/
structure TlsConnectorData where
  buildResult : Except String ClientConfigData
  deriving DecidableEq, Repr

/-- `TlsConnectorData::try_to_build_config`. -/
def TlsConnectorData.try_to_build_config (d : TlsConnectorData) : Except String ClientConfigData :=
  d.buildResult

/-- `TlsConnectorData::new_http_auto`: the process-wide default used
when neither a per-call nor a connector-level config is present.
Modelled from the spec as a fixed well-formed default. -/
def TlsConnectorData.new_http_auto : Except String TlsConnectorData :=
  .ok { buildResult := .ok { config := { id := 0 }, server_name := none } }

/-- `ApplicationProtocol`. Modelled from the spec: the enumeration
lives outside the given sources; what the connectors use is its
`is_secure` flag and construction from a selected ALPN identifier. -/
structure ApplicationProtocol where
  alpn : String
  secure : Bool
  deriving DecidableEq, Repr

/-- `ApplicationProtocol::is_secure`. -/
def ApplicationProtocol.is_secure (p : ApplicationProtocol) : Bool :=
  p.secure

/-- `ApplicationProtocol::from(selected_alpn_protocol)`. Modelled from
the spec: an ALPN identifier names an application protocol (the ALPN
string itself carries no secure-scheme flag). -/
def ApplicationProtocol.fromAlpn (s : String) : ApplicationProtocol :=
  { alpn := s, secure := false }

/-- TLS protocol versions of the internal enumeration
(`ProtocolVersion` of `rama_net::tls`). -/
inductive ProtocolVersion where
  | SSLv3
  | TLSv1
  | TLSv1_1
  | TLSv1_2
  | TLSv1_3
  deriving DecidableEq, Repr

/-- Mapping a raw negotiated version code into the internal
enumeration (`ssl_session.protocol_version().try_into()`). Modelled
from the spec: an unmapped version is an error carrying the raw value,
not silently ignored. Codes are the TLS wire codes. -/
def ProtocolVersion.tryFrom (v : Nat) : Except Nat ProtocolVersion :=
  if v = 0x0300 then .ok .SSLv3
  else if v = 0x0301 then .ok .TLSv1
  else if v = 0x0302 then .ok .TLSv1_1
  else if v = 0x0303 then .ok .TLSv1_2
  else if v = 0x0304 then .ok .TLSv1_3
  else .error v

/-- `NegotiatedTlsParameters`: the handshake outcome stored in Context. -/
structure NegotiatedTlsParameters where
  protocol_version : ProtocolVersion
  application_layer_protocol : Option ApplicationProtocol
  deriving DecidableEq, Repr

/-- `TransportContext` (rama-net): resolved destination authority plus
optional application protocol. -/
structure TransportContext where
  authority : Authority
  app_protocol : Option ApplicationProtocol
  deriving DecidableEq, Repr

/-- `RequestContext` (old-rama request context used by the proxy
layer): what `serve` reads from it is its optional authority. -/
structure RequestContext where
  authority : Option Authority
  deriving DecidableEq, Repr

/-- A request, carrying what the two capabilities consumed by the
connectors can derive from it: `RequestContext::new(&req)` (modelled
from the spec: the authority resolvable from the request, if any) and
the fallible `try_ref_into_transport_ctx`. -/
structure Request where
  authority : Option Authority
  transport : Except String TransportContext
  deriving DecidableEq, Repr

/-- `RequestContext::new(&req)`. Modelled from the spec: derives the
request context (authority) from the request. -/
def RequestContext.new (req : Request) : RequestContext :=
  { authority := req.authority }

/-- The type-keyed Context bag, restricted to the entry types the
embedded code reads or writes. Each field is one type key; `insert`
overwrites the field, `get` reads it. -/
structure Ctx where
  proxyInfo : Option HttpProxyInfo := none
  proxySocketAddr : Option SocketAddr := none
  requestContext : Option RequestContext := none
  transportCtx : Option TransportContext := none
  negotiated : Option NegotiatedTlsParameters := none
  tlsTunnel : Option TlsTunnel := none
  connectorData : Option TlsConnectorData := none
  deriving DecidableEq, Repr

/-- `ClientConnection` (old rama): peer address plus stream;
`into_parts` projects the two fields. -/
structure ClientConnection where
  addr : SocketAddr
  stream : StreamM
  deriving DecidableEq, Repr

/-- `EstablishedClientConnection` as used by the proxy layer
(context, request, connection). -/
structure EstablishedClientConnection where
  ctx : Ctx
  req : Request
  conn : ClientConnection
  deriving DecidableEq, Repr

/-- `ctx.get_or_insert_with(|| RequestContext::new(&req))`. -/
def ctxGetOrInsertRequestContext (ctx : Ctx) (req : Request) : RequestContext × Ctx :=
  match ctx.requestContext with
  | some rc => (rc, ctx)
  | none =>
    let rc := RequestContext.new req
    (rc, { ctx with requestContext := some rc })

/-! ### Base64 and the Proxy-Authorization header -/

/-- The base64 standard alphabet. -/
def base64Alphabet : List Char :=
  "ABCDEFGHIJKLMNOPQRSTUVWXYZabcdefghijklmnopqrstuvwxyz0123456789+/".toList

/-- Character for a 6-bit value. -/
def b64Char (n : Nat) : Char :=
  base64Alphabet.getD n 'A'

/-- Standard base64 encoding of a byte list (with padding). -/
def b64Encode : List Nat → List Char
  | [] => []
  | [b1] => [b64Char (b1 / 4), b64Char (b1 % 4 * 16), '=', '=']
  | [b1, b2] =>
    [b64Char (b1 / 4), b64Char (b1 % 4 * 16 + b2 / 16), b64Char (b2 % 16 * 4), '=']
  | b1 :: b2 :: b3 :: rest =>
    b64Char (b1 / 4) :: b64Char (b1 % 4 * 16 + b2 / 16) ::
      b64Char (b2 % 16 * 4 + b3 / 64) :: b64Char (b3 % 64) :: b64Encode rest

/-- Value of the `Proxy-Authorization` header produced by
`Authorization::basic(username, password.as_deref().unwrap_or_default())`:
the missing password defaults to the empty string and the value is
`Basic base64(username:password)`. -/
def basicAuthHeaderValue (username : String) (password : Option String) : String :=
  "Basic " ++ String.mk (b64Encode
    ((username ++ ":" ++ password.getD "").toList.map Char.toNat))

/-- Whether a character may appear in an HTTP header value. Modelled
from the spec: a bearer token must be a legal header token; the headers
crate is outside the given sources. -/
def isLegalHeaderValueChar (c : Char) : Bool :=
  c = '\t' || (32 ≤ c.toNat && c.toNat ≤ 126)

/-- Legality of a bearer token as a header value. Modelled from the
spec: invalid tokens fail construction, not the I/O path. -/
def bearerTokenLegal (t : String) : Bool :=
  t.toList.all isLegalHeaderValueChar

/-- The credentials branch of `HttpProxyConnectorService::serve`
(`layer.rs`, lines 176-195): Basic credentials always attach a
`Proxy-Authorization` header; Bearer credentials attach one when the
token is a legal header value and fail construction otherwise. -/
def applyCredentials (creds : Option ProxyCredentials) (c : HttpProxyConnector) :
    Except String HttpProxyConnector :=
  match creds with
  | none => .ok c
  | some (.basic u p) =>
    .ok (c.with_typed_header ("proxy-authorization", basicAuthHeaderValue u p))
  | some (.bearer t) =>
    if bearerTokenLegal t then
      .ok (c.with_typed_header ("proxy-authorization", "Bearer " ++ t))
    else
      .error "define http proxy bearer token"

/-! ### HttpProxyConnectorService (`src/proxy/http/client/layer.rs`) -/

/-- The sealed proxy-info provider capability: the static provider
(`HttpProxyInfo` itself, lines 251-263) and the context-derived
provider (`FromContext`, lines 265-275). -/
inductive HttpProxyProvider where
  | proxyStatic (info : HttpProxyInfo)
  | fromContext
  deriving DecidableEq, Repr

/-- `Sealed::info`: the static provider always yields its fixed info;
`FromContext` looks up `HttpProxyInfo` in the context. Both are
infallible and return the context unchanged. -/
def HttpProxyProvider.info (p : HttpProxyProvider) (ctx : Ctx) : Option HttpProxyInfo × Ctx :=
  match p with
  | .proxyStatic i => (some i, ctx)
  | .fromContext => (ctx.proxyInfo, ctx)

/-- `HttpProxyConnectorService::serve` (`layer.rs`, lines 134-207).
`inner` is the inner connector service; `hs` is the CONNECT handshake
primitive (`HttpProxyConnector::handshake`, whose I/O lives outside the
given sources): it receives the built connector (authority plus
headers) and the raw stream and yields the tunnel-ready stream. -/
def httpProxyServe
    (provider : HttpProxyProvider)
    (inner : Ctx → Request → Except String EstablishedClientConnection)
    (hs : HttpProxyConnector → StreamM → Except String StreamM)
    (ctx : Ctx) (req : Request) : Except String EstablishedClientConnection :=
  let infoCtx := provider.info ctx
  let info := infoCtx.1
  let ctx := infoCtx.2
  let ctx := match info with
    | some i => { ctx with proxySocketAddr := some i.proxy }
    | none => ctx
  match inner ctx req with
  | .error e => .error ("establish inner stream: " ++ e)
  | .ok established_conn =>
    match info with
    | none => .ok established_conn
    | some info =>
      let ctx := established_conn.ctx
      let req := established_conn.req
      let addr := established_conn.conn.addr
      let stream := established_conn.conn.stream
      let rcCtx := ctxGetOrInsertRequestContext ctx req
      let request_context := rcCtx.1
      let ctx := rcCtx.2
      match request_context.authority with
      | none => .error "missing http authority"
      | some authority =>
        match applyCredentials info.credentials (HttpProxyConnector.new authority) with
        | .error e => .error e
        | .ok connector =>
          match hs connector stream with
          | .error e => .error ("http proxy handshake: " ++ e)
          | .ok stream =>
            .ok { ctx, req, conn := { addr, stream } }

/-! ### TlsConnector family (`rama-tls/src/boring/client/connector.rs`) -/

/-- What the TLS handshake routine reads off the engine's `SslStream`:
the wrapped stream, the established session (if any) with its raw
negotiated protocol-version code, and the selected ALPN protocol. -/
structure SslSessionM where
  protocol_version : Nat
  deriving DecidableEq, Repr

/-- An engine TLS stream over a raw stream. -/
structure SslStreamM where
  inner : StreamM
  session : Option SslSessionM
  alpn : Option String
  deriving DecidableEq, Repr

/-- `AutoTlsStreamData`: the closed two-variant sum behind
`AutoTlsStream` (lines 473-482). -/
inductive AutoTlsStreamData where
  | secure (inner : SslStreamM)
  | plain (inner : StreamM)
  deriving DecidableEq, Repr

/-- `AutoTlsStream` (lines 457-463): a stream that is either secure or
plain, fixed at construction. -/
structure AutoTlsStream where
  inner : AutoTlsStreamData
  deriving DecidableEq, Repr

/-- `EstablishedClientConnection` of rama-net, as produced and consumed
by the TLS connectors: context, request, connection and peer address. -/
structure EstablishedClientConnectionTls (C : Type) where
  ctx : Ctx
  req : Request
  conn : C
  addr : SocketAddr

instance {C : Type} [DecidableEq C] : DecidableEq (EstablishedClientConnectionTls C) := fun a b =>
  match a, b with
  | ⟨c1, r1, o1, a1⟩, ⟨c2, r2, o2, a2⟩ =>
    if h : c1 = c2 ∧ r1 = r2 ∧ o1 = o2 ∧ a1 = a2 then
      .isTrue (by obtain ⟨h1, h2, h3, h4⟩ := h; rw [h1, h2, h3, h4])
    else
      .isFalse (by intro he; cases he; exact h ⟨rfl, rfl, rfl, rfl⟩)

/-- The engine handshake primitive
(`tokio_boring::connect(config, server_host, stream)`): external
collaborator, taken as a function parameter by the embedded routines. -/
abbrev TlsEngine := TlsConfig → Host → StreamM → Except String SslStreamM

/-- `ctx.get_or_try_insert_with_ctx(|ctx| req.try_ref_into_transport_ctx(ctx))`:
reuse a cached `TransportContext`, otherwise compute it fallibly from
the request and cache it. -/
def ctxGetOrTryTransport (ctx : Ctx) (req : Request) : Except String (TransportContext × Ctx) :=
  match ctx.transportCtx with
  | some t => .ok (t, ctx)
  | none =>
    match req.transport with
    | .ok t => .ok (t, { ctx with transportCtx := some t })
    | .error e => .error e

/-- `TlsConnector::handshake` (lines 400-454): resolve the connector
config (per-call `connector_data` first, then the connector-level
`selfData`, then the process default), build the client config, present
the config-specified server name if any (otherwise the resolved host),
drive the engine handshake, then require an established session and a
mappable protocol version before producing `NegotiatedTlsParameters`.
`resolveConnectorConfig` is the config-resolution prefix of the
routine (lines 409-412): per-call data first, then the connector-level
data, then the process-wide default. -/
def resolveConnectorConfig (selfData connector_data : Option TlsConnectorData) :
    Except String ClientConfigData :=
  match connector_data with
  | some d => d.try_to_build_config
  | none =>
    match selfData with
    | some d => d.try_to_build_config
    | none =>
      match TlsConnectorData.new_http_auto with
      | .ok d => d.try_to_build_config
      | .error e => .error e

def tlsHandshake (selfData : Option TlsConnectorData) (connect : TlsEngine)
    (connector_data : Option TlsConnectorData) (server_host : Host) (stream : StreamM) :
    Except String (SslStreamM × NegotiatedTlsParameters) :=
  match resolveConnectorConfig selfData connector_data with
  | .error e => .error e
  | .ok client_config_data =>
    let server_host := client_config_data.server_name.getD server_host
    match connect client_config_data.config server_host stream with
    | .error e => .error ("boring ssl connector: connect: " ++ e)
    | .ok stream =>
      match stream.session with
      | some ssl_session =>
        match ProtocolVersion.tryFrom ssl_session.protocol_version with
        | .error v =>
          .error ("boring ssl connector: min proto version: protocol version " ++ toString v)
        | .ok protocol_version =>
          let application_layer_protocol := stream.alpn.map ApplicationProtocol.fromAlpn
          .ok (stream, { protocol_version, application_layer_protocol })
      | none => .error "boring ssl connector: failed to establish session..."

/-- `TlsConnector<S, ConnectorKindAuto>::serve` (lines 227-287): after
the inner connect, compute (and cache) the transport context; when the
application protocol is not flagged secure return the inner connection
as the Plain variant without a handshake, otherwise perform the
handshake against the authority host and store the negotiated
parameters in the context. Per-call connector data is read from the
context. -/
def tlsServeAuto (selfData : Option TlsConnectorData)
    (inner : Ctx → Request → Except String (EstablishedClientConnectionTls StreamM))
    (connect : TlsEngine) (ctx : Ctx) (req : Request) :
    Except String (EstablishedClientConnectionTls AutoTlsStream) :=
  match inner ctx req with
  | .error e => .error e
  | .ok ecc =>
    match ctxGetOrTryTransport ecc.ctx ecc.req with
    | .error e => .error ("TlsConnector(auto): compute transport context: " ++ e)
    | .ok tc =>
      let transport_ctx := tc.1
      let ctx := tc.2
      if !((transport_ctx.app_protocol.map ApplicationProtocol.is_secure).getD false) then
        .ok { ctx, req := ecc.req, conn := { inner := .plain ecc.conn }, addr := ecc.addr }
      else
        let host := transport_ctx.authority.host
        let connector_data := ctx.connectorData
        match tlsHandshake selfData connect connector_data host ecc.conn with
        | .error e => .error e
        | .ok sp =>
          .ok { ctx := { ctx with negotiated := some sp.2 }, req := ecc.req
                conn := { inner := .secure sp.1 }, addr := ecc.addr }

/-- `TlsConnector<S, ConnectorKindSecure>::serve` (lines 301-338):
after the inner connect and the transport-context computation, the
handshake is attempted unconditionally (the protocol flag is only
logged); the response carries the engine stream itself, so there is no
plain fallback. -/
def tlsServeSecure (selfData : Option TlsConnectorData)
    (inner : Ctx → Request → Except String (EstablishedClientConnectionTls StreamM))
    (connect : TlsEngine) (ctx : Ctx) (req : Request) :
    Except String (EstablishedClientConnectionTls SslStreamM) :=
  match inner ctx req with
  | .error e => .error e
  | .ok ecc =>
    match ctxGetOrTryTransport ecc.ctx ecc.req with
    | .error e => .error ("TlsConnector(auto): compute transport context: " ++ e)
    | .ok tc =>
      let transport_ctx := tc.1
      let ctx := tc.2
      let host := transport_ctx.authority.host
      let connector_data := ctx.connectorData
      match tlsHandshake selfData connect connector_data host ecc.conn with
      | .error e => .error e
      | .ok sp =>
        .ok { ctx := { ctx with negotiated := some sp.2 }, req := ecc.req
              conn := sp.1, addr := ecc.addr }

/-- `TlsConnector<S, ConnectorKindTunnel>::serve` (lines 349-397):
pick the server host from the `TlsTunnel` context marker first, then
the construction-time host (`kindHost`); with neither, return the
Plain variant without a handshake; otherwise perform the handshake
with the chosen host and store the negotiated parameters. -/
def tlsServeTunnel (selfData : Option TlsConnectorData) (kindHost : Option Host)
    (inner : Ctx → Request → Except String (EstablishedClientConnectionTls StreamM))
    (connect : TlsEngine) (ctx : Ctx) (req : Request) :
    Except String (EstablishedClientConnectionTls AutoTlsStream) :=
  match inner ctx req with
  | .error e => .error e
  | .ok ecc =>
    let ctx := ecc.ctx
    match (ctx.tlsTunnel.map TlsTunnel.server_host).or kindHost with
    | none =>
      .ok { ctx, req := ecc.req, conn := { inner := .plain ecc.conn }, addr := ecc.addr }
    | some host =>
      let connector_data := ctx.connectorData
      match tlsHandshake selfData connect connector_data host ecc.conn with
      | .error e => .error e
      | .ok sp =>
        .ok { ctx := { ctx with negotiated := some sp.2 }, req := ecc.req
              conn := { inner := .secure sp.1 }, addr := ecc.addr }

/-! ### Concrete pipeline inputs used by the witnesses -/

/-- A request whose authority resolves to example.com:443. -/
def wReq : Request :=
  { authority := some { host := "example.com", port := 443 }
    transport := .error "not computed" }

/-- A request with no resolvable authority. -/
def wReqNoAuth : Request :=
  { authority := none, transport := .error "not computed" }

/-- Proxy info without credentials. -/
def wInfo : HttpProxyInfo :=
  { proxy := "10.0.0.1:8080", credentials := none }

/-- A context carrying `wInfo` as its `HttpProxyInfo` entry. -/
def wCtx : Ctx :=
  { proxyInfo := some wInfo }

/-- An inner connector that always succeeds with a raw stream. -/
def wInner : Ctx → Request → Except String EstablishedClientConnection :=
  fun c r => .ok { ctx := c, req := r, conn := { addr := "93.184.216.34:443", stream := .raw 7 } }

/-- A CONNECT handshake primitive that succeeds, wrapping the stream. -/
def wHs : HttpProxyConnector → StreamM → Except String StreamM :=
  fun c s => .ok (.tunneled c s)

/-! ### Concrete TLS inputs used by the witnesses -/

/-- A transport context whose application protocol is not flagged secure. -/
def wTcPlain : TransportContext :=
  { authority := { host := "example.com", port := 80 }
    app_protocol := some { alpn := "http/1.1", secure := false } }

/-- A request whose transport context computes to `wTcPlain`. -/
def wReqPlain : Request :=
  { authority := none, transport := .ok wTcPlain }

/-- An inner connector service for the TLS layer. -/
def wInnerT : Ctx → Request → Except String (EstablishedClientConnectionTls StreamM) :=
  fun c r => .ok { ctx := c, req := r, conn := .raw 3, addr := "1.2.3.4:80" }

/-- An engine that always fails to connect. -/
def wEngineFail : TlsEngine :=
  fun _ _ _ => .error "engine down"

/-- An engine that succeeds with a TLS 1.3 session and ALPN h2. -/
def wEngineOk : TlsEngine :=
  fun _ _ s => .ok { inner := s, session := some { protocol_version := 0x0304 }, alpn := some "h2" }

/-- An engine whose handshake completes without an established session. -/
def wEngineNoSession : TlsEngine :=
  fun _ _ s => .ok { inner := s, session := none, alpn := none }

/-- A context carrying a `TlsTunnel` marker. -/
def wCtxTun : Ctx :=
  { tlsTunnel := some { server_host := "tunnel.test" } }

/-! ### Helper lemmas -/

/-- The channel is fully retired exactly when every token is dropped. -/
lemma allDropped_iff {n : Nat} (s : GState n) :
    allDropped s = true ↔ ∀ i, s.dropped i = true := by
  simp [allDropped, List.all_eq_true, List.mem_finRange]

/-- One step preserves the shutdown invariant: past `waitCancel` the
root token is cancelled, and in `done` every token has been dropped. -/
lemma gstep_inv {n : Nat} (dl : Option Nat) (s : GState n) (e : GEvent n)
    (h1 : s.phase ≠ Phase.waitCancel → s.cancelled = true)
    (h2 : s.phase = Phase.done → ∀ i, s.dropped i = true) :
    ((step dl s e).phase ≠ Phase.waitCancel → (step dl s e).cancelled = true)
    ∧ ((step dl s e).phase = Phase.done → ∀ i, (step dl s e).dropped i = true) := by
  obtain ⟨c, dr, ph, el⟩ := s
  cases e with
  | signal =>
    refine ⟨fun _ => rfl, fun hd i => ?_⟩
    exact h2 hd i
  | dropTok j =>
    refine ⟨fun hp => h1 hp, fun hd i => ?_⟩
    simp only [step]
    by_cases hij : i = j
    · simp [hij]
    · simp [hij]
      exact h2 hd i
  | tick =>
    simp only [step]
    by_cases hw : ph = Phase.waitRecv
    · subst hw
      simp only [if_pos rfl]
      exact ⟨fun _ => h1 (by simp), fun hd => absurd hd (by simp)⟩
    · rw [if_neg (by simpa using hw)]
      exact ⟨h1, h2⟩
  | poll =>
    cases ph with
    | waitCancel =>
      simp only [step]
      by_cases hc : c = true
      · subst hc
        simp only [if_pos rfl]
        exact ⟨fun _ => rfl, fun hd => absurd hd (by simp)⟩
      · rw [if_neg (by simpa using hc)]
        exact ⟨h1, h2⟩
    | waitRecv =>
      simp only [step]
      by_cases hall : allDropped (⟨c, dr, Phase.waitRecv, el⟩ : GState n) = true
      · rw [if_pos hall]
        refine ⟨fun _ => h1 (by simp), fun _ => ?_⟩
        exact (allDropped_iff _).mp hall
      · rw [if_neg hall]
        cases dl with
        | none => exact ⟨h1, h2⟩
        | some d =>
          dsimp only
          by_cases hdl : d ≤ el
          · rw [if_pos hdl]
            exact ⟨fun _ => h1 (by simp), fun hd => absurd hd (by simp)⟩
          · rw [if_neg hdl]
            exact ⟨h1, h2⟩
    | done => exact ⟨h1, h2⟩
    | timedOut => exact ⟨h1, h2⟩

/-- The shutdown invariant holds along every trace. -/
lemma grun_inv {n : Nat} (dl : Option Nat) (s : GState n) (tr : List (GEvent n))
    (h1 : s.phase ≠ Phase.waitCancel → s.cancelled = true)
    (h2 : s.phase = Phase.done → ∀ i, s.dropped i = true) :
    ((run dl s tr).phase ≠ Phase.waitCancel → (run dl s tr).cancelled = true)
    ∧ ((run dl s tr).phase = Phase.done → ∀ i, (run dl s tr).dropped i = true) := by
  induction tr generalizing s with
  | nil => exact ⟨h1, h2⟩
  | cons e tr ih =>
    have h := gstep_inv dl s e h1 h2
    exact ih (step dl s e) h.1 h.2

/-- Polling `recv` with tokens still live past the deadline: the call
times out without touching any token. -/
lemma step_poll_timeout {n : Nat} (d : Nat) (s : GState n)
    (hp : s.phase = Phase.waitRecv) (hnd : allDropped s = false) (hd : d ≤ s.elapsed) :
    step (some d) s .poll = { s with phase := Phase.timedOut } := by
  obtain ⟨c, dr, ph, el⟩ := s
  simp only at hp
  subst hp
  simp only [step]
  rw [if_neg (by simp [hnd]), if_pos (by simpa using hd)]

/-- Polling `recv` once the channel is fully retired resolves the call. -/
lemma step_poll_done {n : Nat} (dl : Option Nat) (s : GState n)
    (hp : s.phase = Phase.waitRecv) (hall : allDropped s = true) :
    step dl s .poll = { s with phase := Phase.done } := by
  obtain ⟨c, dr, ph, el⟩ := s
  simp only at hp
  subst hp
  simp only [step]
  rw [if_pos hall]

/-- `ctx.get_or_try_insert_with_ctx` only touches the transport-context
entry: every other entry, in particular the negotiated TLS parameters,
is unchanged. -/
lemma ctxGetOrTryTransport_negotiated (ctx : Ctx) (req : Request)
    (t : TransportContext) (ctx2 : Ctx)
    (h : ctxGetOrTryTransport ctx req = .ok (t, ctx2)) :
    ctx2.negotiated = ctx.negotiated := by
  unfold ctxGetOrTryTransport at h
  cases hc : ctx.transportCtx with
  | some t0 => rw [hc] at h; cases h; rfl
  | none =>
    rw [hc] at h
    cases hr : req.transport with
    | ok t1 => rw [hr] at h; cases h; rfl
    | error e => rw [hr] at h; cases h

/-- Both sealed providers leave the context untouched while resolving. -/
lemma providerInfo_snd (p : HttpProxyProvider) (ctx : Ctx) :
    (p.info ctx).2 = ctx := by
  cases p <;> rfl

/-! ### Claims about the graceful-shutdown primitive -/

/-- Claim C1: `shutdown()` resolves only after the root cancellation
token has been cancelled by the shutdown signal and every issued token
has been dropped, whatever the order of drops (any scheduler trace of
the machine that reaches `done` has `cancelled` set and every token
dropped); with zero issued tokens it resolves as soon as the signal
has fired (signal followed by two polls reaches `done`). -/
theorem gracefulShutdown_resolves_only_after_cancel_and_drops
    (n : Nat) (tr : List (GEvent n))
    (h : (run none (init n) tr).phase = Phase.done) :
    ((run none (init n) tr).cancelled = true
      ∧ ∀ i, (run none (init n) tr).dropped i = true)
    ∧ (run (n := 0) none (init 0) [.signal, .poll, .poll]).phase = Phase.done := by
  have inv := grun_inv none (init n) tr
    (fun hc => absurd rfl hc) (fun hd => by simp [init, run] at hd)
  exact ⟨⟨inv.1 (by rw [h]; simp), inv.2 h⟩, by decide⟩

/-- Witness for C1 at a concrete input: one issued token, dropped
after the signal, two polls resolve the shutdown. -/
theorem gracefulShutdown_resolves_only_after_cancel_and_drops_witness :
    ((run none (init 1) [.signal, .dropTok 0, .poll, .poll]).cancelled = true
      ∧ ∀ i, (run none (init 1) [.signal, .dropTok 0, .poll, .poll]).dropped i = true)
    ∧ (run (n := 0) none (init 0) [.signal, .poll, .poll]).phase = Phase.done :=
  gracefulShutdown_resolves_only_after_cancel_and_drops 1
    [.signal, .dropTok 0, .poll, .poll] (by decide)

/-- Claim C8: `shutdown_until(d)` first waits for the root token to be
cancelled (any state past `waitCancel` has `cancelled` set); if the
completion channel is still open once the deadline has elapsed, the
next poll resolves with the distinguished strongly-typed
`TimeoutError` while leaving every outstanding token and the
cancellation flag untouched; if all issued tokens have dropped, the
next poll resolves with `Ok`. -/
theorem gracefulShutdownUntil_timeout_or_ok (n d : Nat) (tr : List (GEvent n)) :
    ((run (some d) (init n) tr).phase ≠ Phase.waitCancel →
      (run (some d) (init n) tr).cancelled = true)
    ∧ ((run (some d) (init n) tr).phase = Phase.waitRecv →
        allDropped (run (some d) (init n) tr) = false →
        d ≤ (run (some d) (init n) tr).elapsed →
        shutdownUntilResult (step (some d) (run (some d) (init n) tr) .poll)
            = some (.error TimeoutError.mk)
        ∧ (∀ i, (step (some d) (run (some d) (init n) tr) .poll).dropped i
              = (run (some d) (init n) tr).dropped i)
        ∧ (step (some d) (run (some d) (init n) tr) .poll).cancelled
            = (run (some d) (init n) tr).cancelled)
    ∧ ((run (some d) (init n) tr).phase = Phase.waitRecv →
        allDropped (run (some d) (init n) tr) = true →
        shutdownUntilResult (step (some d) (run (some d) (init n) tr) .poll)
            = some (.ok ())) := by
  refine ⟨?_, ?_, ?_⟩
  · exact (grun_inv (some d) (init n) tr
      (fun hc => absurd rfl hc) (fun hd => by simp [init, run] at hd)).1
  · intro hp hnd hd
    rw [step_poll_timeout d _ hp hnd hd]
    exact ⟨rfl, fun _ => rfl, rfl⟩
  · intro hp hall
    rw [step_poll_done (some d) _ hp hall]
    rfl

/-- Witness for C8 at concrete inputs: with one token held past a zero
deadline the next poll yields the typed timeout error; with the token
dropped it yields `Ok`. -/
theorem gracefulShutdownUntil_timeout_or_ok_witness :
    (shutdownUntilResult (step (some 0) (run (some 0) (init 1) [.signal, .poll]) .poll)
        = some (.error TimeoutError.mk))
    ∧ shutdownUntilResult
        (step (some 0) (run (some 0) (init 1) [.signal, .dropTok 0, .poll]) .poll)
        = some (.ok ()) :=
  ⟨((gracefulShutdownUntil_timeout_or_ok 1 0 [.signal, .poll]).2.1
      (by decide) (by decide) (by decide)).1,
    (gracefulShutdownUntil_timeout_or_ok 1 0 [.signal, .dropTok 0, .poll]).2.2
      (by decide) (by decide)⟩

/-- Claim C10: a pending token's `child_token` is again a pending token
(a clone with state `None`, not a wired child), and the shutdown
future of both the pending token and its derived token never resolves
(polling stays `pending` in every cancellation world). -/
theorem tokenPending_child_pending_never_resolves :
    (∀ fresh, Token.pendingTok.child_token fresh = Token.pendingTok)
    ∧ (∀ w, Token.pendingTok.shutdownFut.pollW w = Poll.pending)
    ∧ (∀ fresh w, (Token.pendingTok.child_token fresh).shutdownFut.pollW w = Poll.pending) :=
  ⟨fun _ => rfl, fun _ => rfl, fun _ _ => rfl⟩

/-! ### Claims about HttpProxyConnectorService -/

/-- Claim C2: the CONNECT handshake over the inner stream executes iff
the provider resolved a present `HttpProxyInfo` (static provider:
always; context provider: iff the info is in the context); with no
info resolved, the inner connector's `EstablishedClientConnection` is
returned unmodified and the handshake primitive is never consulted
(the result is the same for every `hs`). When info is present and the
happy-path preconditions hold, the result is exactly the handshake's
outcome over the inner stream. -/
theorem httpProxyServe_connect_iff_info_present
    (provider : HttpProxyProvider)
    (inner : Ctx → Request → Except String EstablishedClientConnection)
    (hs : HttpProxyConnector → StreamM → Except String StreamM)
    (ctx : Ctx) (req : Request) :
    ((∀ i0, ((HttpProxyProvider.proxyStatic i0).info ctx).1 = some i0)
      ∧ (HttpProxyProvider.fromContext.info ctx).1 = ctx.proxyInfo)
    ∧ ((provider.info ctx).1 = none → ∀ est, inner ctx req = .ok est →
        httpProxyServe provider inner hs ctx req = .ok est)
    ∧ (∀ i c1 r1 a s auth conn2,
        (provider.info ctx).1 = some i →
        inner { ctx with proxySocketAddr := some i.proxy } req
          = .ok { ctx := c1, req := r1, conn := { addr := a, stream := s } } →
        (ctxGetOrInsertRequestContext c1 r1).1.authority = some auth →
        applyCredentials i.credentials (HttpProxyConnector.new auth) = .ok conn2 →
        httpProxyServe provider inner hs ctx req =
          match hs conn2 s with
          | .error e => .error ("http proxy handshake: " ++ e)
          | .ok s2 =>
            .ok { ctx := (ctxGetOrInsertRequestContext c1 r1).2, req := r1
                  conn := { addr := a, stream := s2 } }) := by
  refine ⟨⟨fun _ => rfl, rfl⟩, ?_, ?_⟩
  · intro hnone est hinner
    have h2 : provider.info ctx = (none, ctx) :=
      Prod.ext_iff.mpr ⟨hnone, providerInfo_snd provider ctx⟩
    simp [httpProxyServe, h2, hinner]
  · intro i c1 r1 a s auth conn2 hinfo hinner hauth hcreds
    have h2 : provider.info ctx = (some i, ctx) :=
      Prod.ext_iff.mpr ⟨hinfo, providerInfo_snd provider ctx⟩
    simp [httpProxyServe, h2, hinner, hauth, hcreds]

/-- Claim C9: when proxy info was resolved but no target authority can
be determined from the context (after computing and caching the
request context), `serve` fails with the missing-authority error; the
handshake primitive `hs` is arbitrary, so no CONNECT handshake is
attempted. -/
theorem httpProxyServe_missing_authority
    (provider : HttpProxyProvider)
    (inner : Ctx → Request → Except String EstablishedClientConnection)
    (hs : HttpProxyConnector → StreamM → Except String StreamM)
    (ctx : Ctx) (req : Request) (i : HttpProxyInfo) (c1 : Ctx) (r1 : Request)
    (a : SocketAddr) (s : StreamM)
    (hinfo : (provider.info ctx).1 = some i)
    (hinner : inner { ctx with proxySocketAddr := some i.proxy } req
        = .ok { ctx := c1, req := r1, conn := { addr := a, stream := s } })
    (hauth : (ctxGetOrInsertRequestContext c1 r1).1.authority = none) :
    httpProxyServe provider inner hs ctx req = .error "missing http authority" := by
  have h2 : provider.info ctx = (some i, ctx) :=
    Prod.ext_iff.mpr ⟨hinfo, providerInfo_snd provider ctx⟩
  simp [httpProxyServe, h2, hinner, hauth]

/-- Claim C6: with Basic credentials the attached `Proxy-Authorization`
header value is `Basic` followed by the base64 encoding of
`username:password` (a missing password encodes as empty), and the
concrete credentials alice/secret produce exactly
`Basic YWxpY2U6c2VjcmV0`. -/
theorem basicCredentials_header_value
    (u : String) (p : Option String) (c : HttpProxyConnector) :
    applyCredentials (some (.basic u p)) c
      = .ok (c.with_typed_header ("proxy-authorization", basicAuthHeaderValue u p))
    ∧ basicAuthHeaderValue u p
      = "Basic " ++ String.mk (b64Encode ((u ++ ":" ++ p.getD "").toList.map Char.toNat))
    ∧ basicAuthHeaderValue "alice" (some "secret") = "Basic YWxpY2U6c2VjcmV0" :=
  ⟨rfl, rfl, by decide⟩

/-- Witness for C2: the context provider with the info present runs
the CONNECT handshake (the stream comes back tunneled), and with an
empty context the inner connection is returned unmodified. -/
theorem httpProxyServe_connect_iff_info_present_witness :
    httpProxyServe .fromContext wInner wHs wCtx wReq
      = .ok { ctx := { wCtx with
                        proxySocketAddr := some "10.0.0.1:8080"
                        requestContext := some { authority := some { host := "example.com", port := 443 } } }
              req := wReq
              conn := { addr := "93.184.216.34:443"
                        stream := .tunneled
                          (HttpProxyConnector.new { host := "example.com", port := 443 })
                          (.raw 7) } }
    ∧ httpProxyServe .fromContext wInner wHs {} wReq
      = .ok { ctx := {}, req := wReq
              conn := { addr := "93.184.216.34:443", stream := .raw 7 } } := by
  constructor
  · have h := (httpProxyServe_connect_iff_info_present .fromContext wInner wHs wCtx wReq).2.2
      wInfo { wCtx with proxySocketAddr := some "10.0.0.1:8080" } wReq
      "93.184.216.34:443" (.raw 7) { host := "example.com", port := 443 }
      (HttpProxyConnector.new { host := "example.com", port := 443 })
      rfl rfl rfl rfl
    exact h.trans (by decide)
  · exact (httpProxyServe_connect_iff_info_present .fromContext wInner wHs {} wReq).2.1
      rfl _ rfl

/-- Witness for C9: with proxy info in the context but a request with
no resolvable authority, `serve` fails with the missing-authority
error. -/
theorem httpProxyServe_missing_authority_witness :
    httpProxyServe .fromContext wInner wHs wCtx wReqNoAuth
      = .error "missing http authority" :=
  httpProxyServe_missing_authority .fromContext wInner wHs wCtx wReqNoAuth
    wInfo { wCtx with proxySocketAddr := some "10.0.0.1:8080" } wReqNoAuth
    "93.184.216.34:443" (.raw 7) rfl rfl rfl

/-! ### Claims about the TlsConnector family -/

/-- Claim C3: when the Auto connector's computed transport context has
no application protocol flagged secure, `serve` returns the inner
connection wrapped as the Plain variant of `AutoTlsStream`; the engine
handshake `connect` is universally quantified and absent from the
result, so the handshake routine is never invoked, and the negotiated
parameters entry of the resulting context equals the inner
connection's (nothing is inserted). -/
theorem tlsServeAuto_plain_when_not_secure
    (selfData : Option TlsConnectorData)
    (inner : Ctx → Request → Except String (EstablishedClientConnectionTls StreamM))
    (connect : TlsEngine) (ctx : Ctx) (req : Request)
    (c1 : Ctx) (r1 : Request) (conn : StreamM) (a : SocketAddr)
    (tcx : TransportContext) (ctx2 : Ctx)
    (hinner : inner ctx req = .ok { ctx := c1, req := r1, conn := conn, addr := a })
    (ht : ctxGetOrTryTransport c1 r1 = .ok (tcx, ctx2))
    (hsec : (tcx.app_protocol.map ApplicationProtocol.is_secure).getD false = false) :
    tlsServeAuto selfData inner connect ctx req
      = .ok { ctx := ctx2, req := r1, conn := { inner := .plain conn }, addr := a }
    ∧ ctx2.negotiated = c1.negotiated := by
  constructor
  · simp [tlsServeAuto, hinner, ht, hsec]
  · exact ctxGetOrTryTransport_negotiated c1 r1 tcx ctx2 ht

/-- Claim C4: the Secure connector attempts the handshake
unconditionally — no hypothesis on the transport context's protocol
flag is needed, and the result is exactly the handshake's outcome — so
a failing handshake surfaces as an error, never as a plain fallback
(the response type carries the engine stream itself). -/
theorem tlsServeSecure_always_attempts_handshake
    (selfData : Option TlsConnectorData)
    (inner : Ctx → Request → Except String (EstablishedClientConnectionTls StreamM))
    (connect : TlsEngine) (ctx : Ctx) (req : Request)
    (c1 : Ctx) (r1 : Request) (conn : StreamM) (a : SocketAddr)
    (tcx : TransportContext) (ctx2 : Ctx)
    (hinner : inner ctx req = .ok { ctx := c1, req := r1, conn := conn, addr := a })
    (ht : ctxGetOrTryTransport c1 r1 = .ok (tcx, ctx2)) :
    tlsServeSecure selfData inner connect ctx req
      = (match tlsHandshake selfData connect ctx2.connectorData tcx.authority.host conn with
         | .error e => .error e
         | .ok sp => .ok { ctx := { ctx2 with negotiated := some sp.2 }, req := r1
                           conn := sp.1, addr := a })
    ∧ (∀ e, tlsHandshake selfData connect ctx2.connectorData tcx.authority.host conn = .error e →
        tlsServeSecure selfData inner connect ctx req = .error e) := by
  have h1 : tlsServeSecure selfData inner connect ctx req
      = (match tlsHandshake selfData connect ctx2.connectorData tcx.authority.host conn with
         | .error e => .error e
         | .ok sp => .ok { ctx := { ctx2 with negotiated := some sp.2 }, req := r1
                           conn := sp.1, addr := a }) := by
    simp [tlsServeSecure, hinner, ht]
  exact ⟨h1, fun e he => by rw [h1, he]⟩

/-- Claim C5: the Tunnel connector picks its host as follows — with
neither a `TlsTunnel` context marker nor a construction-time host it
returns the Plain variant without a handshake; with only a configured
host it performs the handshake with that host; with a context marker
it performs the handshake with the marker's server host whatever host
was configured. -/
theorem tlsServeTunnel_host_precedence
    (selfData : Option TlsConnectorData)
    (inner : Ctx → Request → Except String (EstablishedClientConnectionTls StreamM))
    (connect : TlsEngine) (ctx : Ctx) (req : Request)
    (c1 : Ctx) (r1 : Request) (conn : StreamM) (a : SocketAddr)
    (hinner : inner ctx req = .ok { ctx := c1, req := r1, conn := conn, addr := a }) :
    (c1.tlsTunnel = none →
      tlsServeTunnel selfData none inner connect ctx req
        = .ok { ctx := c1, req := r1, conn := { inner := .plain conn }, addr := a })
    ∧ (∀ h0, c1.tlsTunnel = none →
        tlsServeTunnel selfData (some h0) inner connect ctx req
          = match tlsHandshake selfData connect c1.connectorData h0 conn with
            | .error e => .error e
            | .ok sp => .ok { ctx := { c1 with negotiated := some sp.2 }, req := r1
                              conn := { inner := .secure sp.1 }, addr := a })
    ∧ (∀ tun kindHost, c1.tlsTunnel = some tun →
        tlsServeTunnel selfData kindHost inner connect ctx req
          = match tlsHandshake selfData connect c1.connectorData tun.server_host conn with
            | .error e => .error e
            | .ok sp => .ok { ctx := { c1 with negotiated := some sp.2 }, req := r1
                              conn := { inner := .secure sp.1 }, addr := a }) := by
  refine ⟨fun htun => ?_, fun h0 htun => ?_, fun tun kindHost htun => ?_⟩
  · simp [tlsServeTunnel, hinner, htun, Option.or]
  · simp [tlsServeTunnel, hinner, htun, Option.or]
  · simp [tlsServeTunnel, hinner, htun, Option.or]

/-- Claim C7: in the shared handshake routine, a completed handshake
without an established session yields the distinct
session-establishment-failure error (and hence no
`NegotiatedTlsParameters`); a negotiated protocol version that cannot
be mapped to the internal enumeration yields an error carrying the raw
version; only on success are the mapped version and optional ALPN
protocol produced, and the Secure connector then stores them as the
negotiated-parameters entry of the resulting context. -/
theorem tlsHandshake_session_version_outcomes
    (selfData : Option TlsConnectorData) (connect : TlsEngine)
    (cd : Option TlsConnectorData) (host : Host) (stream : StreamM)
    (ccd : ClientConfigData) (st : SslStreamM)
    (hcfg : resolveConnectorConfig selfData cd = .ok ccd)
    (hconn : connect ccd.config (ccd.server_name.getD host) stream = .ok st) :
    (st.session = none →
      tlsHandshake selfData connect cd host stream
        = .error "boring ssl connector: failed to establish session...")
    ∧ (∀ sess v, st.session = some sess →
        ProtocolVersion.tryFrom sess.protocol_version = .error v →
        tlsHandshake selfData connect cd host stream
          = .error ("boring ssl connector: min proto version: protocol version " ++ toString v))
    ∧ (∀ sess pv, st.session = some sess →
        ProtocolVersion.tryFrom sess.protocol_version = .ok pv →
        tlsHandshake selfData connect cd host stream
          = .ok (st, { protocol_version := pv
                       application_layer_protocol := st.alpn.map ApplicationProtocol.fromAlpn }))
    ∧ (∀ inner ctx req c1 r1 conn2 a tcx ctx2 sp,
        inner ctx req = .ok { ctx := c1, req := r1, conn := conn2, addr := a } →
        ctxGetOrTryTransport c1 r1 = .ok (tcx, ctx2) →
        tlsHandshake selfData connect ctx2.connectorData tcx.authority.host conn2 = .ok sp →
        tlsServeSecure selfData inner connect ctx req
          = .ok { ctx := { ctx2 with negotiated := some sp.2 }, req := r1
                  conn := sp.1, addr := a }) := by
  refine ⟨fun hsess => ?_, fun sess v hsess hver => ?_, fun sess pv hsess hver => ?_,
    fun inner ctx req c1 r1 conn2 a tcx ctx2 sp hinner ht hhs => ?_⟩
  · simp [tlsHandshake, hcfg, hconn, hsess]
  · simp [tlsHandshake, hcfg, hconn, hsess, hver]
  · simp [tlsHandshake, hcfg, hconn, hsess, hver]
  · simp [tlsServeSecure, hinner, ht, hhs]

/-- Witness for C3: over a non-secure transport context the Auto
connector returns the Plain variant even when the engine would fail,
and the negotiated-parameters entry stays empty. -/
theorem tlsServeAuto_plain_when_not_secure_witness :
    tlsServeAuto none wInnerT wEngineFail {} wReqPlain
      = .ok { ctx := { transportCtx := some wTcPlain }, req := wReqPlain
              conn := { inner := .plain (.raw 3) }, addr := "1.2.3.4:80" }
    ∧ (({ transportCtx := some wTcPlain } : Ctx)).negotiated = (({} : Ctx)).negotiated :=
  tlsServeAuto_plain_when_not_secure none wInnerT wEngineFail {} wReqPlain
    {} wReqPlain (.raw 3) "1.2.3.4:80" wTcPlain { transportCtx := some wTcPlain }
    rfl rfl rfl

/-- Witness for C4: over the same non-secure transport context the
Secure connector still drives the engine, and the failing handshake
surfaces as an error. -/
theorem tlsServeSecure_always_attempts_handshake_witness :
    tlsServeSecure none wInnerT wEngineFail {} wReqPlain
      = .error "boring ssl connector: connect: engine down" :=
  (tlsServeSecure_always_attempts_handshake none wInnerT wEngineFail {} wReqPlain
      {} wReqPlain (.raw 3) "1.2.3.4:80" wTcPlain { transportCtx := some wTcPlain }
      rfl rfl).2
    "boring ssl connector: connect: engine down" (by decide)

/-- Witness for C5: with a `TlsTunnel` marker in the context the
Tunnel connector performs the handshake against the marker's host even
though a different host is configured, storing the negotiated
parameters. -/
theorem tlsServeTunnel_host_precedence_witness :
    tlsServeTunnel none (some "other.example") wInnerT wEngineOk wCtxTun wReqPlain
      = .ok { ctx := { wCtxTun with
                        negotiated := some
                          { protocol_version := .TLSv1_3
                            application_layer_protocol := some { alpn := "h2", secure := false } } }
              req := wReqPlain
              conn := { inner := .secure
                          { inner := .raw 3
                            session := some { protocol_version := 0x0304 }
                            alpn := some "h2" } }
              addr := "1.2.3.4:80" } := by
  have h := (tlsServeTunnel_host_precedence none wInnerT wEngineOk wCtxTun wReqPlain
      wCtxTun wReqPlain (.raw 3) "1.2.3.4:80" rfl).2.2
    { server_host := "tunnel.test" } (some "other.example") rfl
  exact h.trans (by decide)

/-- Witness for C7: an engine handshake that completes without an
established session makes the routine fail with the distinct
session-establishment error. -/
theorem tlsHandshake_session_version_outcomes_witness :
    tlsHandshake none wEngineNoSession none "example.com" (.raw 3)
      = .error "boring ssl connector: failed to establish session..." :=
  (tlsHandshake_session_version_outcomes none wEngineNoSession none "example.com" (.raw 3)
      { config := { id := 0 }, server_name := none }
      { inner := .raw 3, session := none, alpn := none }
      rfl rfl).1 rfl
